import Mathlib

/-!
Verification of the pokemon_db scraping pipeline.

Shallow embedding of `pokemon_db.py` and `pokemon_db_image_scraper.py`:
strings are Lean `String`s (character lists), Python `float` values on the
simple decimal strings occurring here are modelled as rationals, network
responses are an explicit oracle, and the filesystem is an explicit
association list of file names to byte lists.
-/

namespace PokemonDb

/-! ## Detail-page field parsing (`pokemon_scraper`, pokemon_db.py lines 118-196) -/

/-- Python `str.isspace` on one character (ASCII whitespace and the
non-breaking space, which Python treats as whitespace). -/
def isPySpaceChar (c : Char) : Bool := c.isWhitespace || c == '\xA0'

/-- Python `str.isspace`: non-empty and every character is whitespace. -/
def pyIsSpace (s : String) : Bool := !s.isEmpty && s.data.all isPySpaceChar

/-- Value of a list of decimal digit characters, most significant first. -/
def digitsVal (l : List Char) : Nat := l.foldl (fun n c => 10 * n + (c.toNat - 48)) 0

/-- Split a character list at every occurrence of the character `c`
(Python `str.split` on a one-character separator). -/
def splitOnChar (c : Char) : List Char → List (List Char)
  | [] => [[]]
  | x :: xs =>
    match splitOnChar c xs with
    | [] => [[]]
    | h :: t => if x == c then [] :: h :: t else (x :: h) :: t

/-- Python `float()` on the simple non-negative decimal strings produced by
the scraper (`"88.1"`, `"0.7"`, `"6.9"`, `"12"`), modelled over `ℚ`;
`none` models the `ValueError` raised on any other input. -/
def parseFloatChars (l : List Char) : Option ℚ :=
  match splitOnChar '.' l with
  | [w] => if !w.isEmpty && w.all Char.isDigit then some (digitsVal w) else none
  | [w, f] =>
    if (!w.isEmpty || !f.isEmpty) && w.all Char.isDigit && f.all Char.isDigit then
      some ((digitsVal w : ℚ) + (digitsVal f : ℚ) / (10 : ℚ) ^ f.length)
    else none
  | _ => none

/-- The characters strictly before the first occurrence of the pattern
`pat`; this is `s.split(pat)[0]` in Python (the whole string when `pat`
does not occur). -/
def takeBefore (pat : List Char) : List Char → List Char
  | [] => []
  | c :: cs => if pat.isPrefixOf (c :: cs) then [] else c :: takeBefore pat cs

/-- Lines 149-150: `height = td.string.replace(u'\xa0','')` followed by
`float(height.split('m')[0])`.  Removing every occurrence of the single
character `\xa0` is the character filter; `split('m')[0]` is the prefix
before the first `'m'`. -/
def height_meters (td : String) : Option ℚ :=
  parseFloatChars (takeBefore ['m'] (td.data.filter (fun c => c != '\xA0')))

/-- Lines 153-154: `weight = td.string.replace(u'\xa0','')` followed by
`float(weight.split('kg')[0])`. -/
def weight_kg (td : String) : Option ℚ :=
  parseFloatChars (takeBefore ['k', 'g'] (td.data.filter (fun c => c != '\xA0')))

/-- Lines 157-161: keep the gender-cell child nodes whose text is not
whitespace-only (`if not str(x).isspace()`). -/
def gender_stats (gender : List String) : List String :=
  gender.filter (fun s => !(pyIsSpace s))

/-- Lines 163-168: `"Genderless"` among the kept tokens gives `(0.0, 0.0)`;
otherwise tokens 0 and 2 are percentage strings, `float(tok.split('%')[0])`
each.  `none` models the `IndexError`/`ValueError` raised when the tokens
are missing or non-numeric. -/
def maleFemale (gender : List String) : Option (ℚ × ℚ) :=
  if "Genderless" ∈ gender_stats gender then some (0, 0)
  else
    match (gender_stats gender)[0]?, (gender_stats gender)[2]? with
    | some m, some f =>
      match parseFloatChars (takeBefore ['%'] m.data),
            parseFloatChars (takeBefore ['%'] f.data) with
      | some mv, some fv => some (mv, fv)
      | _, _ => none
    | _, _ => none

/-! ## CSV identifier round trip (pokemon_db.py lines 236, 253-258, 306-308) -/

/-- A value held by a column of the re-loaded table: pandas either keeps
the text or infers an integer dtype. -/
inductive CsvValue where
  | str (s : String)
  | int (n : Nat)
  deriving DecidableEq

/-- A field that pandas `read_csv` recognises as an integer literal:
non-empty, all decimal digits. -/
def isIntegerField (s : String) : Bool := !s.isEmpty && s.data.all Char.isDigit

/-- `final_df.to_csv` (line 254) writes the string cells of the
`pokedex_num` column verbatim, leading zeros included (the source comment
at line 307 confirms the file retains them). -/
def to_csv_cell (s : String) : String := s

/-- `pd.read_csv` (line 257) dtype inference on one column: a column whose
every field is an unquoted integer literal is loaded as an integer (int64)
column — exactly the behaviour the source comment at lines 306-308
documents for `pokedex_num` — otherwise it stays a string column. -/
def read_csv_column (col : List String) : List CsvValue :=
  if col.all isIntegerField then col.map (fun s => CsvValue.int (digitsVal s.data))
  else col.map CsvValue.str

/-- Write-then-read round trip of the `pokedex_num` column. -/
def pokedex_num_roundtrip (col : List String) : List CsvValue :=
  read_csv_column (col.map to_csv_cell)

/-! ## Listing dedup and `link_frame` (pokemon_db.py lines 66-93,
pokemon_db_image_scraper.py lines 46-64) -/

/-- The `unique_pokemon` / `unique_links` loop: append each element not
already present.  `seen` is the list built so far. -/
def uniqueLoop {α : Type} [DecidableEq α] (seen : List α) : List α → List α
  | [] => []
  | x :: xs => if x ∈ seen then uniqueLoop seen xs else x :: uniqueLoop (seen ++ [x]) xs

/-- Lines 66-92: the names and the links are deduplicated *independently*
and then paired columnwise by `pd.DataFrame`; when the two deduplicated
lists have different lengths the `DataFrame` constructor raises
(`none`). -/
def link_frame (listing : List (String × String)) : Option (List (String × String)) :=
  let unique_pokemon := uniqueLoop [] (listing.map Prod.fst)
  let unique_links := uniqueLoop [] (listing.map Prod.snd)
  if unique_pokemon.length = unique_links.length then some (unique_pokemon.zip unique_links)
  else none

/-- Deduplication of the listing *by display name*, first occurrence wins,
each kept row retaining its own URL — the output the specification
describes.  `seen` is the list of display names already kept. -/
def dedupByName (seen : List String) : List (String × String) → List (String × String)
  | [] => []
  | p :: ps => if p.1 ∈ seen then dedupByName seen ps else p :: dedupByName (seen ++ [p.1]) ps

/-- Spec-described listing dedup, starting from no name seen. -/
def listingDedup (listing : List (String × String)) : List (String × String) :=
  dedupByName [] listing

/-! ## Table merge (pokemon_db.py lines 240-243) -/

/-- One row of `pokedex_df`; only the join key and the identifier column
matter for the claims about the merge. -/
structure PokedexRow where
  poke_name_from_link : String
  pokedex_num : String
  deriving DecidableEq

/-- Line 242: `pd.merge(link_frame, pokedex_df, left_on="pokemon",
right_on="poke_name_from_link")` — the default *inner* join: each listing
row is paired with every record whose `poke_name_from_link` equals its
`pokemon`; listing rows with no match produce nothing, and no error is
raised. -/
def merged_df (lf : List (String × String)) (pokedex : List PokedexRow) :
    List ((String × String) × PokedexRow) :=
  lf.flatMap (fun p => (pokedex.filter (fun r => r.poke_name_from_link == p.1)).map (fun r => (p, r)))

/-! ## Image downloader (pokemon_db_image_scraper.py lines 66-188) -/

/-- The parts of a detail page the downloader can look at: the page header
(the canonical entity name, which the downloader never reads), the
`a[rel="lightbox"]` artwork href, if any, and the `img[src*="/sprites/"]`
sprite src, if any. -/
structure PageModel where
  header : String
  artwork : Option String
  sprite : Option String
  deriving DecidableEq

/-- Body of an HTTP response: an HTML detail page or raw image bytes. -/
inductive Body where
  | html (p : PageModel)
  | raw (b : List Nat)
  deriving DecidableEq

/-- Outcome of one `get(url)` call: the request raises, or returns a
status code and a body. -/
inductive GetResult where
  | raise
  | resp (status : Nat) (body : Body)
  deriving DecidableEq

/-- `BeautifulSoup(page.content)`: parsing raw bytes that are not an HTML
detail page yields a soup in which neither selector matches. -/
def soupOf : Body → PageModel
  | .html p => p
  | .raw _ => ⟨"", none, none⟩

/-- Byte encoding of a string (one byte per character, by code point). -/
def strBytes (s : String) : List Nat := s.data.map Char.toNat

/-- `response.content`: the raw bytes; for an HTML body, some byte
serialization of the page (not further relied on by any claim). -/
def bodyBytes : Body → List Nat
  | .raw b => b
  | .html p => strBytes p.header

/-- Lines 148-151: fix a protocol-relative or root-relative sprite URL. -/
def normalizeSpriteUrl (u : String) : String :=
  if u.startsWith "//" then "https:" ++ u
  else if u.startsWith "/" then "https://img.pokemondb.net" ++ u
  else u

/-- Lines 137-151: try the official artwork href first; otherwise fall
back to the sprite src, normalized; otherwise no image reference. -/
def selectImageUrl (p : PageModel) : Option String :=
  match p.artwork with
  | some href => some href
  | none =>
    match p.sprite with
    | some src => some (normalizeSpriteUrl src)
    | none => none

/-- Observable state of one run: the files on disk (name, bytes) — the
only state that persists across runs — plus the run's network-call log
(URLs passed to `get`, in order) and the run's `failed_pokemon` list. -/
structure RunState where
  files : List (String × List Nat)
  calls : List String
  failed : List String
  deriving DecidableEq

/-- How one iteration of the `while` body ends: `break` (image saved, or
no image reference found) or an exception caught by the `except` arm. -/
inductive AttemptResult where
  | broke
  | raised
  deriving DecidableEq

/-- Lines 130-164, one `try` body.  The network oracle `net i u` is the
result of the `i`-th `get` call of the run (zero-based) when passed `u`.
Every `get` is logged.  A non-200 page status raises; a found image URL is
fetched, and only a 200 image response writes the file (append and
overwrite coincide here: every write in the model happens at a path the
exists-check has just ruled out). -/
def attempt (net : Nat → String → GetResult) (st : RunState) (pokeUrl imgPath : String) :
    RunState × AttemptResult :=
  match net st.calls.length pokeUrl with
  | .raise => ({ st with calls := st.calls ++ [pokeUrl] }, .raised)
  | .resp s1 b1 =>
    let st1 : RunState := { st with calls := st.calls ++ [pokeUrl] }
    if s1 = 200 then
      match selectImageUrl (soupOf b1) with
      | none => (st1, .broke)
      | some imageUrl =>
        match net st1.calls.length imageUrl with
        | .raise => ({ st1 with calls := st1.calls ++ [imageUrl] }, .raised)
        | .resp s2 b2 =>
          let st2 : RunState := { st1 with calls := st1.calls ++ [imageUrl] }
          if s2 = 200 then
            ({ st2 with files := st2.files ++ [(imgPath, bodyBytes b2)] }, .broke)
          else (st2, .raised)
    else (st1, .raised)

/-- Lines 128-174: the retry loop, by the number of attempts still
allowed (`retry_limit - attempts`).  An attempt that breaks ends the loop;
an exception consumes one allowance, and consuming the last one appends
the entity to `failed_pokemon`. -/
def runAttempts (net : Nat → String → GetResult) (pokeUrl imgPath pokeName : String) :
    Nat → RunState → RunState
  | 0, st => st
  | n + 1, st =>
    match attempt net st pokeUrl imgPath with
    | (st2, .broke) => st2
    | (st2, .raised) =>
      if n = 0 then { st2 with failed := st2.failed ++ [pokeName] }
      else runAttempts net pokeUrl imgPath pokeName n st2

/-- Line 74. -/
def retry_limit : Nat := 3

/-- Line 70. -/
def folder_name : String := "pokemon_images"

/-- Line 109: `row['pokemon'].lower().replace(' ', '_')` — the key is
derived from the *listing* display name; lowering and the one-character
replacement act characterwise. -/
def keyOf (displayName : String) : String :=
  ⟨displayName.data.map (fun c => if c == ' ' then '_' else c.toLower)⟩

/-- Lines 111-112: `os.path.join(folder_name, f"{poke_name}_image.jpg")`. -/
def imgPathOf (displayName : String) : String :=
  folder_name ++ "/" ++ keyOf displayName ++ "_image.jpg"

/-- Lines 109-176, one row of the loop: skip when a file already exists at
the image path (`os.path.exists`, line 115) — the only pre-download check
the code makes — otherwise run the retry loop. -/
def processEntity (net : Nat → String → GetResult) (st : RunState) (row : String × String) :
    RunState :=
  if (st.files.map Prod.fst).contains (imgPathOf row.1) then st
  else runAttempts net row.2 (imgPathOf row.1) (keyOf row.1) retry_limit st

/-- Lines 184-186: the failure log, one name per line. -/
def failedLogBytes (failed : List String) : List Nat :=
  strBytes (String.join (failed.map (fun n => n ++ "\n")))

/-- Lines 81-188, one whole run over the listing, starting from the files
persisted by earlier runs; `failed_pokemon.txt` is written at the end of
the run when any entity failed. -/
def runScraper (net : Nat → String → GetResult) (listing : List (String × String))
    (files0 : List (String × List Nat)) : RunState :=
  let st := listing.foldl (processEntity net) ⟨files0, [], []⟩
  if st.failed.isEmpty then st
  else { st with files := st.files ++ [("failed_pokemon.txt", failedLogBytes st.failed)] }

/-! ## Helper lemmas -/

theorem takeBefore_append (p : Char) (pt n r : List Char) (h : p ∉ n) :
    takeBefore (p :: pt) (n ++ p :: pt ++ r) = n := by
  induction n with
  | nil =>
    show takeBefore (p :: pt) (p :: (pt ++ r)) = []
    unfold takeBefore
    rw [if_pos]
    simp [List.cons_prefix_cons]
  | cons a n' ih =>
    have hpa : p ≠ a := by
      intro e
      exact h (by simp [e])
    have hpn : p ∉ n' := fun hx => h (List.mem_cons_of_mem _ hx)
    show takeBefore (p :: pt) (a :: (n' ++ p :: pt ++ r)) = a :: n'
    unfold takeBefore
    rw [if_neg, ih hpn]
    simp [List.cons_prefix_cons, hpa]

theorem takeBefore_append_single (c : Char) (n : List Char) (h : c ∉ n) :
    takeBefore [c] (n ++ [c]) = n := by
  simpa using takeBefore_append c [] n [] h

theorem takeBefore_append_pair (k g : Char) (n : List Char) (h : k ∉ n) :
    takeBefore [k, g] (n ++ [k, g]) = n := by
  simpa using takeBefore_append k [g] n [] h

theorem uniqueLoop_map_fst (l : List (String × String)) :
    ∀ seen : List String, uniqueLoop seen (l.map Prod.fst) = (dedupByName seen l).map Prod.fst := by
  induction l with
  | nil => intro seen; rfl
  | cons p ps ih =>
    intro seen
    show uniqueLoop seen (p.1 :: ps.map Prod.fst) = (dedupByName seen (p :: ps)).map Prod.fst
    unfold uniqueLoop dedupByName
    by_cases h : p.1 ∈ seen
    · rw [if_pos h, if_pos h, ih]
    · rw [if_neg h, if_neg h]
      simp [ih]

theorem uniqueLoop_map_snd (l0 : List (String × String))
    (H : ∀ p ∈ l0, ∀ q ∈ l0, (p.1 = q.1 ↔ p.2 = q.2)) :
    ∀ (l em : List (String × String)), (∀ p ∈ l, p ∈ l0) → (∀ p ∈ em, p ∈ l0) →
    uniqueLoop (em.map Prod.snd) (l.map Prod.snd)
      = (dedupByName (em.map Prod.fst) l).map Prod.snd := by
  intro l
  induction l with
  | nil => intro em _ _; rfl
  | cons p ps ih =>
    intro em hl hem
    have hp : p ∈ l0 := hl p (List.mem_cons_self p ps)
    have key : p.2 ∈ em.map Prod.snd ↔ p.1 ∈ em.map Prod.fst := by
      simp only [List.mem_map]
      constructor
      · rintro ⟨q, hq, hq2⟩
        exact ⟨q, hq, (H q (hem q hq) p hp).mpr hq2⟩
      · rintro ⟨q, hq, hq1⟩
        exact ⟨q, hq, (H q (hem q hq) p hp).mp hq1⟩
    have hl' : ∀ q ∈ ps, q ∈ l0 := fun q hq => hl q (List.mem_cons_of_mem _ hq)
    show uniqueLoop (em.map Prod.snd) (p.2 :: ps.map Prod.snd)
        = (dedupByName (em.map Prod.fst) (p :: ps)).map Prod.snd
    unfold uniqueLoop dedupByName
    by_cases h : p.1 ∈ em.map Prod.fst
    · rw [if_pos (key.mpr h), if_pos h]
      exact ih em hl' hem
    · rw [if_neg (fun hx => h (key.mp hx)), if_neg h]
      have e2 : em.map Prod.snd ++ [p.2] = (em ++ [p]).map Prod.snd := by simp
      have e1 : em.map Prod.fst ++ [p.1] = (em ++ [p]).map Prod.fst := by simp
      rw [e2, e1]
      have hem' : ∀ q ∈ em ++ [p], q ∈ l0 := by
        intro q hq
        rcases List.mem_append.mp hq with h1 | h1
        · exact hem q h1
        · rw [List.mem_singleton.mp h1]; exact hp
      rw [List.map_cons]
      exact congrArg (fun t => p.2 :: t) (ih (em ++ [p]) hl' hem')

theorem attempt_raise (net : Nat → String → GetResult) (st : RunState) (u p : String)
    (h : net st.calls.length u = GetResult.raise) :
    attempt net st u p = ({ st with calls := st.calls ++ [u] }, .raised) := by
  unfold attempt
  rw [h]

theorem attempt_page_not200 (net : Nat → String → GetResult) (st : RunState) (u p : String)
    (s1 : Nat) (b1 : Body) (h : net st.calls.length u = GetResult.resp s1 b1)
    (hs : s1 ≠ 200) :
    attempt net st u p = ({ st with calls := st.calls ++ [u] }, .raised) := by
  unfold attempt
  rw [h]
  simp [hs]

theorem attempt_no_image (net : Nat → String → GetResult) (st : RunState) (u p : String)
    (b1 : Body) (h : net st.calls.length u = GetResult.resp 200 b1)
    (h2 : selectImageUrl (soupOf b1) = none) :
    attempt net st u p = ({ st with calls := st.calls ++ [u] }, .broke) := by
  unfold attempt
  rw [h]
  simp [h2]

theorem attempt_img_raise (net : Nat → String → GetResult) (st : RunState) (u p iu : String)
    (b1 : Body) (h : net st.calls.length u = GetResult.resp 200 b1)
    (h2 : selectImageUrl (soupOf b1) = some iu)
    (h3 : net (st.calls.length + 1) iu = GetResult.raise) :
    attempt net st u p = ({ st with calls := st.calls ++ [u, iu] }, .raised) := by
  unfold attempt
  rw [h]
  simp [h2, h3, List.append_assoc]

theorem attempt_img_not200 (net : Nat → String → GetResult) (st : RunState) (u p iu : String)
    (b1 : Body) (s2 : Nat) (b2 : Body) (h : net st.calls.length u = GetResult.resp 200 b1)
    (h2 : selectImageUrl (soupOf b1) = some iu)
    (h3 : net (st.calls.length + 1) iu = GetResult.resp s2 b2) (hs : s2 ≠ 200) :
    attempt net st u p = ({ st with calls := st.calls ++ [u, iu] }, .raised) := by
  unfold attempt
  rw [h]
  simp [h2, h3, hs, List.append_assoc]

theorem attempt_success (net : Nat → String → GetResult) (st : RunState) (u p iu : String)
    (b1 : Body) (b2 : Body) (h : net st.calls.length u = GetResult.resp 200 b1)
    (h2 : selectImageUrl (soupOf b1) = some iu)
    (h3 : net (st.calls.length + 1) iu = GetResult.resp 200 b2) :
    attempt net st u p
      = (⟨st.files ++ [(p, bodyBytes b2)], st.calls ++ [u, iu], st.failed⟩, .broke) := by
  unfold attempt
  rw [h]
  simp [h2, h3, List.append_assoc]

theorem runAttempts_broke (net : Nat → String → GetResult) (u p k : String) (n : Nat)
    (st st2 : RunState) (h : attempt net st u p = (st2, .broke)) :
    runAttempts net u p k (n + 1) st = st2 := by
  unfold runAttempts
  rw [h]

theorem runAttempts_raised (net : Nat → String → GetResult) (u p k : String) (n : Nat)
    (st st2 : RunState) (h : attempt net st u p = (st2, .raised)) :
    runAttempts net u p k (n + 1) st
      = if n = 0 then { st2 with failed := st2.failed ++ [k] }
        else runAttempts net u p k n st2 := by
  conv_lhs => unfold runAttempts
  rw [h]

theorem runAttempts_all_raise (net : Nat → String → GetResult) (u p k : String)
    (h : ∀ i, net i u = GetResult.raise) :
    ∀ (n : Nat) (st : RunState), n ≠ 0 →
    runAttempts net u p k n st
      = ⟨st.files, st.calls ++ List.replicate n u, st.failed ++ [k]⟩ := by
  intro n
  induction n with
  | zero => intro st h0; exact absurd rfl h0
  | succ m ih =>
    intro st _
    rw [runAttempts_raised net u p k m st _ (attempt_raise net st u p (h st.calls.length))]
    by_cases hm : m = 0
    · subst hm
      simp [List.replicate]
    · rw [if_neg hm, ih _ hm]
      simp [List.replicate_succ]

theorem processEntity_new (net : Nat → String → GetResult) (st : RunState)
    (row : String × String)
    (h : (st.files.map Prod.fst).contains (imgPathOf row.1) = false) :
    processEntity net st row
      = runAttempts net row.2 (imgPathOf row.1) (keyOf row.1) retry_limit st := by
  unfold processEntity
  rw [h]
  simp

/-! ## Claim theorems -/

/-- C2 counterexample: on the listing `[("A","u"), ("B","u")]` — two
distinct display names sharing one detail URL, a case the claim explicitly
covers — the claimed output is the per-pair dedup `[("A","u"), ("B","u")]`,
but the code deduplicates the name column and the URL column
independently, leaving columns of lengths 2 and 1, so the `DataFrame`
construction fails instead of producing the claimed pairs. -/
theorem link_frame_shared_url_counterexample :
    link_frame [("A", "u"), ("B", "u")] = none ∧
    listingDedup [("A", "u"), ("B", "u")] = [("A", "u"), ("B", "u")] ∧
    link_frame [("A", "u"), ("B", "u")] ≠ some (listingDedup [("A", "u"), ("B", "u")]) := by
  decide

/-- C2 (amended): when any two listing rows share a display name exactly
when they share a detail URL — which holds for the real listing, where
variant forms repeat both the name and the URL of their base entity — the
code's columnwise construction coincides with deduplication by display
name: first occurrence wins, order is preserved, and every kept display
name is paired with the detail URL it had in the input. -/
theorem link_frame_dedup_by_display_name (l : List (String × String))
    (H : ∀ p ∈ l, ∀ q ∈ l, (p.1 = q.1 ↔ p.2 = q.2)) :
    link_frame l = some (listingDedup l) := by
  have hf := uniqueLoop_map_fst l []
  have hs := uniqueLoop_map_snd l H l [] (fun p hp => hp) (by simp)
  simp only [List.map_nil] at hf hs
  unfold link_frame listingDedup
  rw [hf, hs]
  rw [if_pos (by simp)]
  rw [List.zip_map']
  simp

/-- Witness for C2 (amended) on a listing with a repeated row. -/
theorem link_frame_dedup_witness :
    link_frame [("Bulbasaur", "u1"), ("Bulbasaur", "u1"), ("Ivysaur", "u2")]
      = some [("Bulbasaur", "u1"), ("Ivysaur", "u2")] := by
  have h := link_frame_dedup_by_display_name
    [("Bulbasaur", "u1"), ("Bulbasaur", "u1"), ("Ivysaur", "u2")] (by decide)
  rw [h]
  decide

/-- C3 counterexample: the listing row `("A","u")` has no matching record
(the only record's canonical name is `"B"`), and the merge result is the
plain empty table: the row is silently dropped, and no error value of any
kind is produced — contradicting the claim that such a row is reported as
an error condition and never silently dropped. -/
theorem merged_df_drops_unmatched_row :
    merged_df [("A", "u")] [⟨"B", "001"⟩] = [] ∧
    (("A", "u"), (⟨"B", "001"⟩ : PokedexRow)) ∉ merged_df [("A", "u")] [⟨"B", "001"⟩] := by
  decide

/-- C3 (amended): the merge is a plain inner join with no error channel —
a merged row exists exactly for a listing row and a record agreeing on the
key, so a listing row whose display name matches no record's canonical
name contributes nothing to the output and is dropped silently. -/
theorem merged_df_membership (lf : List (String × String)) (pokedex : List PokedexRow)
    (pr : (String × String) × PokedexRow) :
    pr ∈ merged_df lf pokedex ↔
      pr.1 ∈ lf ∧ pr.2 ∈ pokedex ∧ pr.2.poke_name_from_link = pr.1.1 := by
  obtain ⟨p, r⟩ := pr
  simp only [merged_df, List.mem_flatMap, List.mem_map, List.mem_filter, beq_iff_eq]
  constructor
  · rintro ⟨a, ha, q, ⟨hq, hqa⟩, he⟩
    cases he
    exact ⟨ha, hq, hqa⟩
  · rintro ⟨hp, hr, hk⟩
    exact ⟨p, hp, r, ⟨hr, hk⟩, rfl⟩

/-- C1: the claim demands that a zero-padded identifier such as `"0025"`
survive the write-then-read round trip as the string `"0025"`; evaluating
the embedded round trip at that failing input shows the re-loaded column
holds the integer `25` instead — the defect the source itself documents at
lines 306-308 of pokemon_db.py. -/
theorem identifier_roundtrip_loses_leading_zeros :
    pokedex_num_roundtrip ["0025"] = [CsvValue.int 25] ∧
    [CsvValue.int 25] ≠ [CsvValue.str "0025"] := by
  decide

/-- C8: whenever the literal token "Genderless" survives the
whitespace-only filter of the gender cell, both ratios are zero; and the
token list `["88.1%", "—", "11.9%"]` resolves to `(88.1, 11.9)` by taking
tokens 0 and 2, stripping the trailing `%`, and parsing as floats. -/
theorem gender_cell_parsing (children : List String)
    (hg : "Genderless" ∈ gender_stats children) :
    maleFemale children = some (0, 0) ∧
    maleFemale ["88.1%", "—", "11.9%"] = some (881/10, 119/10) := by
  constructor
  · unfold maleFemale
    rw [if_pos hg]
  · have h : maleFemale ["88.1%", "—", "11.9%"]
        = some ((digitsVal ['8','8'] : ℚ) + (digitsVal ['1'] : ℚ) / (10:ℚ)^(1:Nat),
                (digitsVal ['1','1'] : ℚ) + (digitsVal ['9'] : ℚ) / (10:ℚ)^(1:Nat)) := rfl
    rw [h]
    have h1 : digitsVal ['8','8'] = 88 := by decide
    have h2 : digitsVal ['1'] = 1 := by decide
    have h3 : digitsVal ['1','1'] = 11 := by decide
    have h4 : digitsVal ['9'] = 9 := by decide
    rw [h1, h2, h3, h4]
    norm_num

/-- Witness for C8 at the concrete genderless cell `["Genderless"]`. -/
theorem gender_cell_parsing_witness :
    maleFemale ["Genderless"] = some (0, 0) ∧
    maleFemale ["88.1%", "—", "11.9%"] = some (881/10, 119/10) :=
  gender_cell_parsing ["Genderless"] (by decide)

/-- C9: for every numeric prefix `n` (any characters free of the unit
letters and of the non-breaking space), the extractor on `n` followed by
`"\xa0m"` (resp. `"\xa0kg"`) strips the artifact, splits off the unit
suffix, and parses exactly the prefix as a float. -/
theorem height_weight_parsing (n : List Char)
    (hm : 'm' ∉ n) (hk : 'k' ∉ n) (hnb : '\xA0' ∉ n) :
    height_meters ⟨n ++ ['\xA0', 'm']⟩ = parseFloatChars n ∧
    weight_kg ⟨n ++ ['\xA0', 'k', 'g']⟩ = parseFloatChars n := by
  have hfil : n.filter (fun c => c != '\xA0') = n := by
    apply List.filter_eq_self.mpr
    intro a ha
    simp only [bne_iff_ne, ne_eq]
    exact fun e => hnb (e ▸ ha)
  constructor
  · show parseFloatChars
        (takeBefore ['m'] ((n ++ ['\xA0', 'm']).filter (fun c => c != '\xA0'))) = _
    rw [List.filter_append, hfil,
      show List.filter (fun c => c != '\xA0') ['\xA0', 'm'] = ['m'] from rfl,
      takeBefore_append_single 'm' n hm]
  · show parseFloatChars
        (takeBefore ['k', 'g'] ((n ++ ['\xA0', 'k', 'g']).filter (fun c => c != '\xA0'))) = _
    rw [List.filter_append, hfil,
      show List.filter (fun c => c != '\xA0') ['\xA0', 'k', 'g'] = ['k', 'g'] from rfl,
      takeBefore_append_pair 'k' 'g' n hk]

/-- Witness for C9 at the spec's concrete inputs: `"0.7\xa0m"` gives `0.7`
and `"6.9\xa0kg"` gives `6.9`. -/
theorem height_weight_parsing_witness :
    height_meters "0.7\xA0m" = some (7/10) ∧ weight_kg "6.9\xA0kg" = some (69/10) := by
  have h7 := height_weight_parsing ['0', '.', '7'] (by decide) (by decide) (by decide)
  have h9 := height_weight_parsing ['6', '.', '9'] (by decide) (by decide) (by decide)
  constructor
  · rw [show ("0.7\xA0m" : String) = ⟨['0', '.', '7'] ++ ['\xA0', 'm']⟩ from rfl, h7.1]
    have h : parseFloatChars ['0', '.', '7']
        = some ((digitsVal ['0'] : ℚ) + (digitsVal ['7'] : ℚ) / (10:ℚ)^(1:Nat)) := rfl
    rw [h, show digitsVal ['0'] = 0 from by decide, show digitsVal ['7'] = 7 from by decide]
    norm_num
  · rw [show ("6.9\xA0kg" : String) = ⟨['6', '.', '9'] ++ ['\xA0', 'k', 'g']⟩ from rfl, h9.2]
    have h : parseFloatChars ['6', '.', '9']
        = some ((digitsVal ['6'] : ℚ) + (digitsVal ['9'] : ℚ) / (10:ℚ)^(1:Nat)) := rfl
    rw [h, show digitsVal ['6'] = 6 from by decide, show digitsVal ['9'] = 9 from by decide]
    norm_num

/-- C4: the claim describes a persisted progress set consulted before
every download and appended to after each success.  Evaluating the run
shows neither behaviour: a persisted file naming the already-downloaded
entity does not prevent the two network calls, and after a successful
download the only persisted artifact is the image file itself — the
entity's name is appended to no set.  The only pre-download check the code
makes is `os.path.exists` on the image path. -/
theorem progress_set_not_consulted_or_updated :
    (runScraper
        (fun _ u => if u = "https://pokemondb.net/pokedex/pikachu"
          then GetResult.resp 200 (Body.html ⟨"Pikachu",
            some "https://img.pokemondb.net/artwork/pikachu.jpg", none⟩)
          else GetResult.resp 200 (Body.raw [9, 9, 9]))
        [("Pikachu", "https://pokemondb.net/pokedex/pikachu")]
        [("progress.txt", strBytes "pikachu\n")]).calls
      = ["https://pokemondb.net/pokedex/pikachu",
         "https://img.pokemondb.net/artwork/pikachu.jpg"] ∧
    (runScraper
        (fun _ u => if u = "https://pokemondb.net/pokedex/pikachu"
          then GetResult.resp 200 (Body.html ⟨"Pikachu",
            some "https://img.pokemondb.net/artwork/pikachu.jpg", none⟩)
          else GetResult.resp 200 (Body.raw [9, 9, 9]))
        [("Pikachu", "https://pokemondb.net/pokedex/pikachu")] []).files
      = [("pokemon_images/pikachu_image.jpg", [9, 9, 9])] := by
  decide

/-- C5: the claim demands zero network calls on a second run over the
same state, including for an entity that completed with no image reference
found.  Evaluating two consecutive runs on such an entity: the first run
persists nothing, so the second run fetches the entity's detail page again
— one network call, not zero. -/
theorem second_run_repeats_network_calls :
    (runScraper (fun _ _ => GetResult.resp 200 (Body.html ⟨"Pikachu", none, none⟩))
        [("Pikachu", "https://pokemondb.net/pokedex/pikachu")] []).files = [] ∧
    (runScraper (fun _ _ => GetResult.resp 200 (Body.html ⟨"Pikachu", none, none⟩))
        [("Pikachu", "https://pokemondb.net/pokedex/pikachu")]
        (runScraper (fun _ _ => GetResult.resp 200 (Body.html ⟨"Pikachu", none, none⟩))
          [("Pikachu", "https://pokemondb.net/pokedex/pikachu")] []).files).calls
      = ["https://pokemondb.net/pokedex/pikachu"] := by
  decide

/-- C6: for an entity whose every fetch raises, the downloader makes
exactly `retry_limit` (3) network attempts, appends the entity to the
failure list exactly once, writes it once to the failure log, and the fold
continues with the remaining entities rather than aborting. -/
theorem retry_exhaustion (net : Nat → String → GetResult) (name url : String)
    (files0 : List (String × List Nat)) (rest : List (String × String))
    (hraise : ∀ i, net i url = GetResult.raise)
    (hnew : (files0.map Prod.fst).contains (imgPathOf name) = false) :
    processEntity net ⟨files0, [], []⟩ (name, url) = ⟨files0, [url, url, url], [keyOf name]⟩ ∧
    ([url, url, url] : List String).length = retry_limit ∧
    ([keyOf name] : List String).count (keyOf name) = 1 ∧
    runScraper net [(name, url)] files0
      = ⟨files0 ++ [("failed_pokemon.txt", failedLogBytes [keyOf name])],
         [url, url, url], [keyOf name]⟩ ∧
    ((name, url) :: rest).foldl (processEntity net) ⟨files0, [], []⟩
      = rest.foldl (processEntity net) (processEntity net ⟨files0, [], []⟩ (name, url)) := by
  have h1 : processEntity net ⟨files0, [], []⟩ (name, url)
      = ⟨files0, [url, url, url], [keyOf name]⟩ := by
    rw [processEntity_new net ⟨files0, [], []⟩ (name, url) hnew]
    rw [runAttempts_all_raise net url (imgPathOf name) (keyOf name) hraise retry_limit
      ⟨files0, [], []⟩ (by decide)]
    simp [List.replicate, retry_limit]
  refine ⟨h1, rfl, by simp, ?_, rfl⟩
  unfold runScraper
  simp only [List.foldl_cons, List.foldl_nil, h1]
  rw [show ([keyOf name] : List String).isEmpty = false from rfl]
  simp

/-- Witness for C6: a single-entity run whose every fetch raises. -/
theorem retry_exhaustion_witness :
    runScraper (fun _ _ => GetResult.raise) [("Pikachu", "u")] []
      = ⟨[("failed_pokemon.txt", failedLogBytes ["pikachu"])], ["u", "u", "u"], ["pikachu"]⟩ := by
  have h := retry_exhaustion (fun _ _ => GetResult.raise) "Pikachu" "u" [] []
    (fun _ => rfl) (by decide)
  rw [h.2.2.2.1]
  decide

/-- C7 counterexample: listing name "Mega Venusaur", canonical
detail-page header "Venusaur".  The claim says the file is written at the
canonical-name path `venusaur_image.jpg`; the run writes
`mega_venusaur_image.jpg`, derived from the listing display name, and no
file at the canonical-name path exists. -/
theorem image_filename_ignores_canonical_name :
    ((runScraper
        (fun _ u => if u = "https://pokemondb.net/pokedex/venusaur"
          then GetResult.resp 200 (Body.html ⟨"Venusaur",
            some "https://img.pokemondb.net/artwork/venusaur.jpg", none⟩)
          else GetResult.resp 200 (Body.raw [7, 7]))
        [("Mega Venusaur", "https://pokemondb.net/pokedex/venusaur")] []).files.map Prod.fst)
      = ["pokemon_images/mega_venusaur_image.jpg"] ∧
    "pokemon_images/venusaur_image.jpg" ∉
      ((runScraper
        (fun _ u => if u = "https://pokemondb.net/pokedex/venusaur"
          then GetResult.resp 200 (Body.html ⟨"Venusaur",
            some "https://img.pokemondb.net/artwork/venusaur.jpg", none⟩)
          else GetResult.resp 200 (Body.raw [7, 7]))
        [("Mega Venusaur", "https://pokemondb.net/pokedex/venusaur")] []).files.map Prod.fst) := by
  decide

/-- C7 (amended): on a successful download the bytes are written to
`<entity_key>_image.jpg` where `entity_key` is the lower-cased,
space-to-underscore-normalized *listing display name* (`row['pokemon']`),
not the detail-page header name. -/
theorem image_filename_from_display_name (net : Nat → String → GetResult)
    (name url iu : String) (pg : PageModel) (b : List Nat)
    (files0 : List (String × List Nat))
    (hnew : (files0.map Prod.fst).contains (imgPathOf name) = false)
    (h1 : net 0 url = GetResult.resp 200 (Body.html pg))
    (h2 : selectImageUrl pg = some iu)
    (h3 : net 1 iu = GetResult.resp 200 (Body.raw b)) :
    processEntity net ⟨files0, [], []⟩ (name, url)
      = ⟨files0 ++ [(imgPathOf name, b)], [url, iu], []⟩ := by
  rw [processEntity_new net ⟨files0, [], []⟩ (name, url) hnew]
  rw [show retry_limit = 2 + 1 from rfl]
  rw [runAttempts_broke net url (imgPathOf name) (keyOf name) 2 ⟨files0, [], []⟩ _
    (attempt_success net ⟨files0, [], []⟩ url (imgPathOf name) iu (Body.html pg)
      (Body.raw b) h1 (by simpa using h2) h3)]
  rfl

/-- Witness for C7 (amended) at a concrete successful download. -/
theorem image_filename_from_display_name_witness :
    processEntity
        (fun _ u => if u = "u1" then GetResult.resp 200 (Body.html ⟨"Venusaur", some "u2", none⟩)
          else GetResult.resp 200 (Body.raw [7, 7]))
        ⟨[], [], []⟩ ("Mega Venusaur", "u1")
      = ⟨[("pokemon_images/mega_venusaur_image.jpg", [7, 7])], ["u1", "u2"], []⟩ := by
  have h := image_filename_from_display_name
    (fun _ u => if u = "u1" then GetResult.resp 200 (Body.html ⟨"Venusaur", some "u2", none⟩)
      else GetResult.resp 200 (Body.raw [7, 7]))
    "Mega Venusaur" "u1" "u2" ⟨"Venusaur", some "u2", none⟩ [7, 7] []
    (by decide) (by decide) (by decide) (by decide)
  rw [h]
  decide

/-- C10: one download attempt either leaves the files untouched — in
particular whenever it ends in a raised exception — or, when some image
fetch returned success status 200, appends exactly the file at the image
path holding exactly the downloaded bytes.  No partial or empty file is
created on a failed attempt: the write happens only inside the
success-status branch. -/
theorem no_file_on_failed_attempt (net : Nat → String → GetResult) (st : RunState)
    (pokeUrl imgPath : String) :
    ((attempt net st pokeUrl imgPath).2 = AttemptResult.raised →
      (attempt net st pokeUrl imgPath).1.files = st.files) ∧
    ((attempt net st pokeUrl imgPath).1.files = st.files ∨
      ∃ iu b, net (st.calls.length + 1) iu = GetResult.resp 200 b ∧
        (attempt net st pokeUrl imgPath).1.files = st.files ++ [(imgPath, bodyBytes b)]) := by
  rcases h1 : net st.calls.length pokeUrl with _ | ⟨s1, b1⟩
  · rw [attempt_raise net st pokeUrl imgPath h1]
    exact ⟨fun _ => rfl, Or.inl rfl⟩
  · by_cases hs1 : s1 = 200
    · subst hs1
      rcases h2 : selectImageUrl (soupOf b1) with _ | iu
      · rw [attempt_no_image net st pokeUrl imgPath b1 h1 h2]
        exact ⟨fun _ => rfl, Or.inl rfl⟩
      · rcases h3 : net (st.calls.length + 1) iu with _ | ⟨s2, b2⟩
        · rw [attempt_img_raise net st pokeUrl imgPath iu b1 h1 h2 h3]
          exact ⟨fun _ => rfl, Or.inl rfl⟩
        · by_cases hs2 : s2 = 200
          · subst hs2
            rw [attempt_success net st pokeUrl imgPath iu b1 b2 h1 h2 h3]
            exact ⟨(fun hc => nomatch hc), Or.inr ⟨iu, b2, h3, rfl⟩⟩
          · rw [attempt_img_not200 net st pokeUrl imgPath iu b1 s2 b2 h1 h2 h3 hs2]
            exact ⟨fun _ => rfl, Or.inl rfl⟩
    · rw [attempt_page_not200 net st pokeUrl imgPath s1 b1 h1 hs1]
      exact ⟨fun _ => rfl, Or.inl rfl⟩

/-- Witness for C10: an attempt whose page fetch raises leaves the
empty filesystem empty. -/
theorem no_file_on_failed_attempt_witness :
    (attempt (fun _ _ => GetResult.raise) ⟨[], [], []⟩ "u" "p").1.files = [] :=
  (no_file_on_failed_attempt (fun _ _ => GetResult.raise) ⟨[], [], []⟩ "u" "p").1 (by decide)

end PokemonDb
